import Mathlib

/-!
Shallow embedding of the leader-block-commit operation from
src/chainstate/burn/operations/leader_block_commit.rs: the wire codec
(parse_data / consensus_serialize), the transaction classifier
(parse_from_tx), the reward-set resolver (RewardSetInfo.into_commit_outs)
and the validity checker (check / check_pox), together with theorems
settling the frozen claims about them.

Bytes are modelled as Nat (with explicit bounds or mod-256 arithmetic where
the Rust u8/u16/u32/u64 semantics matter), byte strings as List Nat, and
the external collaborators (chain parameters, transaction accessors, the
fork-scoped historical view) as structures of functions, following the
interface description of the specification.
-/

namespace LBC

/-- Modelled from the spec: a Stacks address is a version byte plus a
160-bit hash; the derived lexicographic order (version first, then hash)
is embedded injectively into Nat as version * 2^160 + hash, so Nat order
coincides with the Rust derived Ord on well-formed addresses. -/
abbrev StacksAddress := Nat

/-- Modelled from the spec: the size of the 160-bit hash component of an
address; the burn address has an all-zero hash. -/
def ADDR_HASH_SPACE : Nat := 2 ^ 160

/-- Modelled from the spec: the canonical network burn address (all-zero
hash bytes; version 22 on mainnet, 26 on testnet). -/
def burn_address (mainnet : Bool) : StacksAddress :=
  (if mainnet then 22 else 26) * ADDR_HASH_SPACE

/-- Modelled from the spec: an address is a burn address when its hash
bytes are all zero. -/
def is_burn (a : StacksAddress) : Bool := a % ADDR_HASH_SPACE == 0

/-- Modelled from the spec: the opcode tag byte of a leader block commit
operation (the character left-bracket, 0x5b). -/
def LEADER_BLOCK_COMMIT_OPCODE : Nat := 0x5b

/-- BURN_BLOCK_MINED_AT_MODULUS from leader_block_commit.rs. -/
def BURN_BLOCK_MINED_AT_MODULUS : Nat := 5

/-- OUTPUTS_PER_COMMIT from leader_block_commit.rs. -/
def OUTPUTS_PER_COMMIT : Nat := 2

/-- Modelled from the spec: the minimum epoch-marker byte demanded in the
later (2.05) epoch, STACKS_EPOCH_2_05_MARKER from core. -/
def STACKS_EPOCH_2_05_MARKER : Nat := 0x05

/-- Return type of parse_data (struct ParsedData in the source). -/
structure ParsedData where
  block_header_hash : List Nat
  new_seed : List Nat
  parent_block_ptr : Nat
  parent_vtxindex : Nat
  key_block_ptr : Nat
  key_vtxindex : Nat
  burn_parent_modulus : Nat
  memo : Nat
deriving Repr, DecidableEq

/-- Modelled from the spec: parse_u32_from_be (big-endian u32) from the
operations module; returns a value only for an exactly 4-byte slice. -/
def parse_u32_from_be : List Nat → Option Nat
  | [a, b, c, d] => some (((a * 256 + b) * 256 + c) * 256 + d)
  | _ => none

/-- Modelled from the spec: parse_u16_from_be (big-endian u16) from the
operations module; returns a value only for an exactly 2-byte slice. -/
def parse_u16_from_be : List Nat → Option Nat
  | [a, b] => some (a * 256 + b)
  | _ => none

/-- The slice data[a..b] of a byte string, as in the Rust range indexing. -/
def sliceBytes (data : List Nat) (a b : Nat) : List Nat :=
  (data.drop a).take (b - a)

/-- LeaderBlockCommitOp::parse_data.  Rejects payloads shorter than 77
bytes; otherwise splits the fixed layout and decodes the final byte into
the low-3-bit burn parent modulus (reduced mod 5 as in the source) and
the high-5-bit memo. -/
def parse_data (data : List Nat) : Option ParsedData :=
  if data.length < 77 then
    none
  else
    match parse_u32_from_be (sliceBytes data 64 68),
          parse_u16_from_be (sliceBytes data 68 70),
          parse_u32_from_be (sliceBytes data 70 74),
          parse_u16_from_be (sliceBytes data 74 76) with
    | some pbp, some pvt, some kbp, some kvt =>
      some { block_header_hash := sliceBytes data 0 32
             new_seed := sliceBytes data 32 64
             parent_block_ptr := pbp
             parent_vtxindex := pvt
             key_block_ptr := kbp
             key_vtxindex := kvt
             burn_parent_modulus := (data.getD 76 0 % 8) % BURN_BLOCK_MINED_AT_MODULUS
             memo := data.getD 76 0 / 8 % 32 }
    | _, _, _, _ => none

/-- The LeaderBlockCommitOp record (payload, economic and identity
fields), with hashes as byte lists and machine integers as Nat. -/
structure LeaderBlockCommitOp where
  block_header_hash : List Nat
  new_seed : List Nat
  parent_block_ptr : Nat
  parent_vtxindex : Nat
  key_block_ptr : Nat
  key_vtxindex : Nat
  memo : List Nat
  burn_parent_modulus : Nat
  commit_outs : List StacksAddress
  burn_fee : Nat
  sunset_burn : Nat
  input : Nat × Nat
  apparent_sender : Nat
  txid : Nat
  vtxindex : Nat
  block_height : Nat
  burn_header_hash : Nat
deriving Repr, DecidableEq

/-- Big-endian encoding of a u32, as written by write_next. -/
def be32 (n : Nat) : List Nat :=
  [n / 2 ^ 24 % 256, n / 2 ^ 16 % 256, n / 2 ^ 8 % 256, n % 256]

/-- Big-endian encoding of a u16, as written by write_next. -/
def be16 (n : Nat) : List Nat :=
  [n / 256 % 256, n % 256]

/-- LeaderBlockCommitOp::consensus_serialize: opcode tag, then the 76
fixed bytes, then the combined byte (memo[0] or 0, shifted left by 3 with
u8 wrap-around, plus the low 3 bits of the modulus). -/
def consensus_serialize (op : LeaderBlockCommitOp) : List Nat :=
  [LEADER_BLOCK_COMMIT_OPCODE] ++ op.block_header_hash ++ op.new_seed
    ++ be32 op.parent_block_ptr ++ be16 op.parent_vtxindex
    ++ be32 op.key_block_ptr ++ be16 op.key_vtxindex
    ++ [op.memo.headD 0 * 8 % 256 + op.burn_parent_modulus % 8]

/-- RewardSetInfo: anchor block plus recipient (address, slot-count)
pairs for the current reward cycle. -/
structure RewardSetInfo where
  anchor_block : List Nat
  recipients : List (StacksAddress × Nat)
deriving Repr, DecidableEq

/-- MissedBlockCommit: txid, spent input and the intended sortition id. -/
structure MissedBlockCommit where
  txid : Nat
  input : Nat × Nat
  intended_sortition : Nat
deriving Repr, DecidableEq

/-- The op_error variants reachable from the embedded functions. -/
inductive op_error where
  | ParseError
  | InvalidInput
  | BlockCommitBadInput
  | BlockCommitBadOutputs
  | BlockCommitBadModulus
  | BlockCommitPredatesGenesis
  | BlockCommitAlreadyExists
  | BlockCommitNoLeaderKey
  | BlockCommitNoParent
  | BlockCommitAnchorCheck
  | BlockCommitBadEpoch
  | MissedBlockCommit (missed : MissedBlockCommit)
deriving Repr, DecidableEq

instance {ε α : Type} [DecidableEq ε] [DecidableEq α] : DecidableEq (Except ε α) := fun a b =>
  match a, b with
  | .ok x, .ok y => if h : x = y then .isTrue (by rw [h]) else .isFalse (by simp [h])
  | .error x, .error y => if h : x = y then .isTrue (by rw [h]) else .isFalse (by simp [h])
  | .ok _, .error _ => .isFalse (by simp)
  | .error _, .ok _ => .isFalse (by simp)

/-- RewardSetInfo::into_commit_outs: recipients in order, padded with the
network burn address while shorter than OUTPUTS_PER_COMMIT; two burn
addresses when no reward set is given. -/
def into_commit_outs (src : Option RewardSetInfo) (mainnet : Bool) : List StacksAddress :=
  match src with
  | some recipient_set =>
    let outs := recipient_set.recipients.map Prod.fst
    outs ++ List.replicate (OUTPUTS_PER_COMMIT - outs.length) (burn_address mainnet)
  | none => List.replicate OUTPUTS_PER_COMMIT (burn_address mainnet)

/-- Modelled from the spec: the chain parameters consumed by the
classifier and checker (sunset window, prepare-phase predicate,
sunset-burn formula, network flag), abstracted as data. -/
structure PoxConstants where
  sunset_start : Nat
  sunset_end : Nat
deriving Repr, DecidableEq

/-- Modelled from the spec: the Burnchain parameter bundle. -/
structure Burnchain where
  pox_constants : PoxConstants
  is_in_prepare_phase : Nat → Bool
  expected_sunset_burn : Nat → Nat → Nat
  is_mainnet : Bool

/-- Modelled from the spec: the accessors of a generic burn-chain
transaction used by parse_from_tx (recipient outputs in order, signer
count, first spent-output reference, first signer, attached burn amount,
position data). -/
structure BurnchainRecipient where
  address : StacksAddress
  amount : Nat
deriving Repr, DecidableEq

/-- Modelled from the spec: the generic transaction interface. -/
structure BurnchainTransaction where
  opcode : Nat
  data : List Nat
  num_signers : Nat
  recipients : List BurnchainRecipient
  input_tx_ref : Nat × Nat
  signer : Nat
  burn_amount : Nat
  txid : Nat
  vtxindex : Nat
deriving Repr, DecidableEq

/-- The reward-phase output scan of parse_from_tx: walk the first
OUTPUTS_PER_COMMIT outputs demanding one common amount, then demand
exactly OUTPUTS_PER_COMMIT scanned outputs, double the common amount with
u64 checked multiplication, and reject a zero burn fee. -/
def reward_phase_outputs (sunset_burn : Nat) (outputs : List BurnchainRecipient) :
    Except op_error (List StacksAddress × Nat × Nat) :=
  match outputs with
  | o1 :: o2 :: _ =>
    if o2.amount ≠ o1.amount then .error .ParseError
    else if 2 ^ 64 ≤ o1.amount * OUTPUTS_PER_COMMIT then .error .ParseError
    else if o1.amount * OUTPUTS_PER_COMMIT = 0 then .error .ParseError
    else .ok ([o1.address, o2.address], sunset_burn, o1.amount * OUTPUTS_PER_COMMIT)
  | _ => .error .InvalidInput

/-- LeaderBlockCommitOp::parse_from_tx: input/output presence, opcode,
wire decode, pointer sanity checks, then the phase dispatch (post-sunset,
prepare, reward) deriving commit outputs, sunset burn and burn fee. -/
def parse_from_tx (burnchain : Burnchain) (block_height : Nat) (block_hash : Nat)
    (tx : BurnchainTransaction) : Except op_error LeaderBlockCommitOp :=
  if tx.num_signers = 0 then .error .InvalidInput
  else match tx.recipients with
  | [] => .error .InvalidInput
  | out0 :: outrest =>
    if tx.opcode ≠ LEADER_BLOCK_COMMIT_OPCODE then .error .InvalidInput
    else match parse_data tx.data with
    | none => .error .ParseError
    | some data =>
      if data.parent_block_ptr = 0 ∧ data.parent_vtxindex ≠ 0 then .error .ParseError
      else if block_height ≤ data.parent_block_ptr then .error .ParseError
      else if data.key_block_ptr = 0 then .error .ParseError
      else if block_height ≤ data.key_block_ptr then .error .ParseError
      else
        match (if burnchain.pox_constants.sunset_end ≤ block_height then
            if is_burn out0.address = false then .error .BlockCommitBadOutputs
            else .ok ([out0.address], 0, out0.amount)
          else if burnchain.is_in_prepare_phase block_height then
            if is_burn out0.address = false then .error .BlockCommitBadOutputs
            else .ok ([out0.address], 0, out0.amount)
          else
            reward_phase_outputs tx.burn_amount (out0 :: outrest) :
          Except op_error (List StacksAddress × Nat × Nat)) with
        | .error e => .error e
        | .ok (commit_outs, sunset_burn, burn_fee) =>
          .ok { block_header_hash := data.block_header_hash
                new_seed := data.new_seed
                parent_block_ptr := data.parent_block_ptr
                parent_vtxindex := data.parent_vtxindex
                key_block_ptr := data.key_block_ptr
                key_vtxindex := data.key_vtxindex
                memo := [data.memo]
                burn_parent_modulus := data.burn_parent_modulus
                commit_outs := commit_outs
                burn_fee := burn_fee
                sunset_burn := sunset_burn
                input := tx.input_tx_ref
                apparent_sender := tx.signer
                txid := tx.txid
                vtxindex := tx.vtxindex
                block_height := block_height
                burn_header_hash := block_hash }

/-- The protocol epochs visible to the checker. -/
inductive StacksEpochId where
  | Epoch10
  | Epoch20
  | Epoch2_05
deriving Repr, DecidableEq

/-- Modelled from the spec: the fork-scoped historical read view queried
by the checker (ancestor hash, fork descent, genesis snapshot height,
fork uniqueness, leader-key and parent-commit lookups, epoch lookup),
abstracted as total functions; descended_from may fail (none models a
database error, surfaced as the anchor-check error kind). -/
structure SortitionView where
  ancestor_block_hash : Nat → Option Nat
  descended_from : Nat → List Nat → Option Bool
  first_block_height : Nat
  expects_stacks_block_in_fork : List Nat → Bool
  get_leader_key_at : Nat → Nat → Bool
  get_block_commit_parent : Nat → Nat → Bool
  get_stacks_epoch : Nat → Option StacksEpochId

/-- Outcome of the checker: success, a typed rejection, or a process
abort (the expect/panic paths of the source). -/
inductive CheckResult where
  | ok
  | err (e : op_error)
  | fatal
deriving Repr, DecidableEq

/-- LeaderBlockCommitOp::all_outputs_burn (a fold of conjunctions of
is_burn over commit_outs). -/
def all_outputs_burn (op : LeaderBlockCommitOp) : Bool :=
  op.commit_outs.foldl (fun previous_is_burn output_addr =>
    previous_is_burn && is_burn output_addr) true

/-- LeaderBlockCommitOp::check_single_burn_output: exactly one commit
output and it is a burn address. -/
def check_single_burn_output (op : LeaderBlockCommitOp) : Except op_error Unit :=
  if op.commit_outs.length ≠ 1 then .error .BlockCommitBadOutputs
  else if is_burn (op.commit_outs.headD 0) = false then .error .BlockCommitBadOutputs
  else .ok ()

/-- LeaderBlockCommitOp::check_after_pox_sunset. -/
def check_after_pox_sunset (op : LeaderBlockCommitOp) : Except op_error Unit :=
  check_single_burn_output op

/-- LeaderBlockCommitOp::check_prepare_commit_burn. -/
def check_prepare_commit_burn (op : LeaderBlockCommitOp) : Except op_error Unit :=
  check_single_burn_output op

/-- The expected recipient list built inside check_pox: the reward set's
addresses in order, padded with one burn address when there is exactly
one of them. -/
def check_recipients_padded (burnchain : Burnchain) (rsi : RewardSetInfo) :
    List StacksAddress :=
  let check_recipients := rsi.recipients.map Prod.fst
  if check_recipients.length = 1 then
    check_recipients ++ [burn_address burnchain.is_mainnet]
  else
    check_recipients

/-- The ascending sort applied to both lists before the pointwise
comparison in check_pox (Vec::sort with the derived address order). -/
def sortAddrs (l : List StacksAddress) : List StacksAddress :=
  l.insertionSort (· ≤ ·)

/-- LeaderBlockCommitOp::check_pox: the sunset-burn sufficiency check,
then the reward-set branch (prepare-phase single burn, the all-burn
recipient corner case, or the sorted output comparison plus the
anchor-descent requirement), or the all-burn requirement when no reward
set is supplied.  The u64 checked_add expect on the total committed
amount is modelled as the fatal outcome. -/
def check_pox (op : LeaderBlockCommitOp) (burnchain : Burnchain) (view : SortitionView)
    (reward_set_info : Option RewardSetInfo) : CheckResult :=
  if 2 ^ 64 ≤ op.burn_fee + op.sunset_burn then .fatal
  else if op.sunset_burn <
      burnchain.expected_sunset_burn op.block_height (op.burn_fee + op.sunset_burn) then
    .err .BlockCommitBadOutputs
  else
    match reward_set_info with
    | some rsi =>
      if burnchain.is_in_prepare_phase op.block_height then
        match check_prepare_commit_burn op with
        | .error _ => .err .BlockCommitBadOutputs
        | .ok _ => .ok
      else
        if rsi.recipients.foldl (fun prior_is_burn p => prior_is_burn && is_burn p.1) true then
          if all_outputs_burn op = false then .err .BlockCommitBadOutputs else .ok
        else
          let descend_step : Except op_error Bool :=
            if all_outputs_burn op then .ok false
            else
              let check_recipients := check_recipients_padded burnchain rsi
              if op.commit_outs.length ≠ check_recipients.length then
                .error .BlockCommitBadOutputs
              else if ((sortAddrs op.commit_outs).zip (sortAddrs check_recipients)).all
                  (fun p => p.1 == p.2) = false then
                .error .BlockCommitBadOutputs
              else .ok true
          match descend_step with
          | .error e => .err e
          | .ok expect_pox_descendant =>
            match view.descended_from op.parent_block_ptr rsi.anchor_block with
            | none => .err .BlockCommitAnchorCheck
            | some descended_from_anchor =>
              if descended_from_anchor ≠ expect_pox_descendant then
                .err .BlockCommitBadOutputs
              else .ok
    | none =>
      if all_outputs_burn op = false then .err .BlockCommitBadOutputs else .ok

/-- The PoX step of check: the post-sunset single-burn check at or above
sunset_end, otherwise check_pox. -/
def pox_step (op : LeaderBlockCommitOp) (burnchain : Burnchain) (view : SortitionView)
    (reward_set_info : Option RewardSetInfo) : CheckResult :=
  if burnchain.pox_constants.sunset_end ≤ op.block_height then
    match check_after_pox_sunset op with
    | .error e => .err e
    | .ok _ => .ok
  else
    check_pox op burnchain view reward_set_info

/-- LeaderBlockCommitOp::check: the ordered guard pipeline (non-zero
burn, slot modulus / missed commitment, PoX outputs, genesis floor, fork
uniqueness, leader key, parent reference, epoch marker). -/
def check (op : LeaderBlockCommitOp) (burnchain : Burnchain) (view : SortitionView)
    (reward_set_info : Option RewardSetInfo) : CheckResult :=
  if op.burn_fee = 0 then .err .BlockCommitBadInput
  else if op.block_height % BURN_BLOCK_MINED_AT_MODULUS ≠
      (op.burn_parent_modulus % BURN_BLOCK_MINED_AT_MODULUS + 1) % BURN_BLOCK_MINED_AT_MODULUS
  then
    let intended_modulus :=
      (op.burn_parent_modulus % BURN_BLOCK_MINED_AT_MODULUS + 1) % BURN_BLOCK_MINED_AT_MODULUS
    let actual_modulus := op.block_height % BURN_BLOCK_MINED_AT_MODULUS
    let miss_distance :=
      if intended_modulus < actual_modulus then actual_modulus - intended_modulus
      else BURN_BLOCK_MINED_AT_MODULUS + actual_modulus - intended_modulus
    if op.block_height < miss_distance then .err .BlockCommitBadModulus
    else
      match view.ancestor_block_hash (op.block_height - miss_distance) with
      | none => .err .BlockCommitNoParent
      | some intended_sortition =>
        .err (.MissedBlockCommit
          { txid := op.txid, input := op.input, intended_sortition := intended_sortition })
  else
    match pox_step op burnchain view reward_set_info with
    | .fatal => .fatal
    | .err e => .err e
    | .ok =>
      if op.block_height < view.first_block_height then .err .BlockCommitPredatesGenesis
      else if view.expects_stacks_block_in_fork op.block_header_hash then
        .err .BlockCommitAlreadyExists
      else if op.block_height ≤ op.key_block_ptr then .err .BlockCommitNoLeaderKey
      else if view.get_leader_key_at op.key_block_ptr op.key_vtxindex = false then
        .err .BlockCommitNoLeaderKey
      else if op.parent_block_ptr = op.block_height then .err .BlockCommitNoParent
      else if (op.parent_block_ptr ≠ 0 ∨ op.parent_vtxindex ≠ 0) ∧
          view.get_block_commit_parent op.parent_block_ptr op.parent_vtxindex = false then
        .err .BlockCommitNoParent
      else
        match view.get_stacks_epoch op.block_height with
        | none => .fatal
        | some .Epoch10 => .fatal
        | some .Epoch20 => .ok
        | some .Epoch2_05 =>
          match op.memo with
          | [] => .err .BlockCommitBadEpoch
          | m0 :: _ =>
            if m0 < STACKS_EPOCH_2_05_MARKER then .err .BlockCommitBadEpoch
            else .ok

/-! Concrete fixtures used by witness and counterexample theorems. -/

def opC2 : LeaderBlockCommitOp :=
  { block_header_hash := List.replicate 32 7
    new_seed := List.replicate 32 9
    parent_block_ptr := 300
    parent_vtxindex := 4
    key_block_ptr := 200
    key_vtxindex := 6
    memo := [0x25]
    burn_parent_modulus := 3
    commit_outs := []
    burn_fee := 1
    sunset_burn := 0
    input := (0, 0)
    apparent_sender := 0
    txid := 0
    vtxindex := 0
    block_height := 0
    burn_header_hash := 0 }

def bcC4 : Burnchain :=
  { pox_constants := { sunset_start := 0, sunset_end := 10 }
    is_in_prepare_phase := fun _ => false
    expected_sunset_burn := fun _ _ => 0
    is_mainnet := true }

def txC4 : BurnchainTransaction :=
  { opcode := 0x5b
    data := List.replicate 70 0 ++ [0, 0, 0, 1, 0, 0, 0]
    num_signers := 1
    recipients := [{ address := burn_address true, amount := 0 }]
    input_tx_ref := (1, 2)
    signer := 3
    burn_amount := 0
    txid := 4
    vtxindex := 5 }

def txC4W : BurnchainTransaction :=
  { opcode := 0x5b
    data := List.replicate 70 0 ++ [0, 0, 0, 1, 0, 0, 0]
    num_signers := 1
    recipients := [{ address := 100, amount := 3 }, { address := 200, amount := 3 }]
    input_tx_ref := (1, 2)
    signer := 3
    burn_amount := 7
    txid := 4
    vtxindex := 5 }

def bcC4W : Burnchain :=
  { pox_constants := { sunset_start := 0, sunset_end := 1000 }
    is_in_prepare_phase := fun _ => false
    expected_sunset_burn := fun _ _ => 0
    is_mainnet := true }

def opC4W : LeaderBlockCommitOp :=
  { block_header_hash := List.replicate 32 0
    new_seed := List.replicate 32 0
    parent_block_ptr := 0
    parent_vtxindex := 0
    key_block_ptr := 1
    key_vtxindex := 0
    memo := [0]
    burn_parent_modulus := 0
    commit_outs := [100, 200]
    burn_fee := 6
    sunset_burn := 7
    input := (1, 2)
    apparent_sender := 3
    txid := 4
    vtxindex := 5
    block_height := 10
    burn_header_hash := 0 }

def txC10W : BurnchainTransaction :=
  { opcode := 0x5b
    data := List.replicate 70 0 ++ [0, 0, 0, 1, 0, 0, 0]
    num_signers := 1
    recipients := [{ address := 100, amount := 2 ^ 63 }, { address := 200, amount := 2 ^ 63 }]
    input_tx_ref := (1, 2)
    signer := 3
    burn_amount := 0
    txid := 4
    vtxindex := 5 }

def opC1W : LeaderBlockCommitOp :=
  { block_header_hash := [1]
    new_seed := [2]
    parent_block_ptr := 0
    parent_vtxindex := 0
    key_block_ptr := 1
    key_vtxindex := 0
    memo := [5]
    burn_parent_modulus := 3
    commit_outs := [burn_address true]
    burn_fee := 1
    sunset_burn := 0
    input := (1, 2)
    apparent_sender := 3
    txid := 4
    vtxindex := 5
    block_height := 7
    burn_header_hash := 0 }

def bcC1W : Burnchain :=
  { pox_constants := { sunset_start := 0, sunset_end := 100 }
    is_in_prepare_phase := fun _ => false
    expected_sunset_burn := fun _ _ => 0
    is_mainnet := true }

def viewC1W : SortitionView :=
  { ancestor_block_hash := fun _ => some 99
    descended_from := fun _ _ => some true
    first_block_height := 0
    expects_stacks_block_in_fork := fun _ => false
    get_leader_key_at := fun _ _ => true
    get_block_commit_parent := fun _ _ => true
    get_stacks_epoch := fun _ => some .Epoch2_05 }

def opC9W : LeaderBlockCommitOp :=
  { block_header_hash := [1]
    new_seed := [2]
    parent_block_ptr := 0
    parent_vtxindex := 0
    key_block_ptr := 1
    key_vtxindex := 0
    memo := [5]
    burn_parent_modulus := 4
    commit_outs := [burn_address true]
    burn_fee := 1
    sunset_burn := 0
    input := (1, 2)
    apparent_sender := 3
    txid := 4
    vtxindex := 5
    block_height := 15
    burn_header_hash := 0 }

def bcC9W : Burnchain :=
  { pox_constants := { sunset_start := 0, sunset_end := 100 }
    is_in_prepare_phase := fun h => h == 15
    expected_sunset_burn := fun _ _ => 5
    is_mainnet := true }

def opC3X : LeaderBlockCommitOp :=
  { block_header_hash := [1]
    new_seed := [2]
    parent_block_ptr := 0
    parent_vtxindex := 0
    key_block_ptr := 1
    key_vtxindex := 0
    memo := [5]
    burn_parent_modulus := 4
    commit_outs := [burn_address true, burn_address true]
    burn_fee := 1
    sunset_burn := 0
    input := (1, 2)
    apparent_sender := 3
    txid := 4
    vtxindex := 5
    block_height := 15
    burn_header_hash := 0 }

def bcC3X : Burnchain :=
  { pox_constants := { sunset_start := 0, sunset_end := 100 }
    is_in_prepare_phase := fun h => h == 15
    expected_sunset_burn := fun _ _ => 0
    is_mainnet := true }

def viewC3X : SortitionView :=
  { ancestor_block_hash := fun _ => some 0
    descended_from := fun _ _ => some true
    first_block_height := 0
    expects_stacks_block_in_fork := fun _ => false
    get_leader_key_at := fun _ _ => true
    get_block_commit_parent := fun _ _ => true
    get_stacks_epoch := fun _ => some .Epoch2_05 }

def opC6W : LeaderBlockCommitOp :=
  { block_header_hash := [1]
    new_seed := [2]
    parent_block_ptr := 5
    parent_vtxindex := 0
    key_block_ptr := 3
    key_vtxindex := 0
    memo := [5]
    burn_parent_modulus := 1
    commit_outs := [burn_address true]
    burn_fee := 1
    sunset_burn := 0
    input := (1, 2)
    apparent_sender := 3
    txid := 4
    vtxindex := 5
    block_height := 7
    burn_header_hash := 0 }

def opC7W : LeaderBlockCommitOp :=
  { block_header_hash := [1]
    new_seed := [2]
    parent_block_ptr := 5
    parent_vtxindex := 0
    key_block_ptr := 3
    key_vtxindex := 0
    memo := [5]
    burn_parent_modulus := 1
    commit_outs := [200, 100]
    burn_fee := 1
    sunset_burn := 0
    input := (1, 2)
    apparent_sender := 3
    txid := 4
    vtxindex := 5
    block_height := 7
    burn_header_hash := 0 }

/-! Helper lemmas shared by the claim theorems. -/

theorem drop_append_len {l₁ l₂ : List Nat} {n : Nat} (h : l₁.length = n) :
    (l₁ ++ l₂).drop n = l₂ := by
  rw [← h, List.drop_left]

theorem take_append_len {l₁ l₂ : List Nat} {n : Nat} (h : l₁.length = n) :
    (l₁ ++ l₂).take n = l₁ := by
  rw [← h, List.take_left]

theorem slice_shift {l₁ l₂ : List Nat} {n a' b' : Nat} (a b : Nat) (h : l₁.length = n)
    (ha : a' = n + a) (hb : b' = n + b) :
    sliceBytes (l₁ ++ l₂) a' b' = sliceBytes l₂ a b := by
  subst ha; subst hb
  unfold sliceBytes
  have hd : (l₁ ++ l₂).drop (n + a) = l₂.drop a := by
    rw [← List.drop_drop, drop_append_len h]
  rw [hd]
  congr 1
  omega

theorem slice_here {l₁ l₂ : List Nat} {n : Nat} (h : l₁.length = n) :
    sliceBytes (l₁ ++ l₂) 0 n = l₁ := by
  unfold sliceBytes
  simpa using take_append_len h

theorem getD_append_len {l₁ l₂ : List Nat} {n : Nat} (h : l₁.length = n) (x d : Nat) :
    (l₁ ++ x :: l₂).getD n d = x := by
  subst h
  induction l₁ with
  | nil => simp
  | cons a t ih => simpa using ih

theorem parse_u32_be32 (n : Nat) (h : n < 2 ^ 32) :
    parse_u32_from_be (be32 n) = some n := by
  simp only [be32, parse_u32_from_be, Option.some.injEq]
  omega

theorem parse_u16_be16 (n : Nat) (h : n < 2 ^ 16) :
    parse_u16_from_be (be16 n) = some n := by
  simp only [be16, parse_u16_from_be, Option.some.injEq]
  omega

theorem sortAddrs_eq_of_perm {l₁ l₂ : List StacksAddress} (h : l₁.Perm l₂) :
    sortAddrs l₁ = sortAddrs l₂ :=
  List.eq_of_perm_of_sorted
    ((List.perm_insertionSort _ l₁).trans (h.trans (List.perm_insertionSort _ l₂).symm))
    (List.sorted_insertionSort _ l₁) (List.sorted_insertionSort _ l₂)

theorem zip_self_all_eq (l : List StacksAddress) :
    (l.zip l).all (fun p => p.1 == p.2) = true := by
  induction l with
  | nil => rfl
  | cons a t ih => simpa using ih

/-! Claim theorems. -/

/-- C8: for every payload of fewer than 77 bytes the wire decoder
parse_data returns the malformed-input outcome (none); being a total Lean
function it cannot panic on short input. -/
theorem C8_parse_data_short (data : List Nat) (h : data.length < 77) :
    parse_data data = none := by
  simp [parse_data, h]

theorem C8_parse_data_short_witness : parse_data (List.replicate 76 0) = none :=
  C8_parse_data_short (List.replicate 76 0) (by simp)

/-- C2: for a validly constructed operation (memo of length 1, modulus in
0..4, 32-byte hashes, u32/u16 pointer fields), decoding the encoded
payload after stripping the 1-byte opcode tag reproduces every pointer
and hash field exactly, the modulus truncated to its low 3 bits, and the
memo byte truncated to its low 5 bits. -/
theorem C2_decode_encode (op : LeaderBlockCommitOp)
    (h_memo : op.memo.length = 1) (h_mod : op.burn_parent_modulus < 5)
    (h_bhh : op.block_header_hash.length = 32) (h_seed : op.new_seed.length = 32)
    (h_pbp : op.parent_block_ptr < 2 ^ 32) (h_pvt : op.parent_vtxindex < 2 ^ 16)
    (h_kbp : op.key_block_ptr < 2 ^ 32) (h_kvt : op.key_vtxindex < 2 ^ 16) :
    parse_data ((consensus_serialize op).drop 1) =
      some { block_header_hash := op.block_header_hash
             new_seed := op.new_seed
             parent_block_ptr := op.parent_block_ptr
             parent_vtxindex := op.parent_vtxindex
             key_block_ptr := op.key_block_ptr
             key_vtxindex := op.key_vtxindex
             burn_parent_modulus := op.burn_parent_modulus % 8
             memo := op.memo.headD 0 % 32 } := by
  have hC : (be32 op.parent_block_ptr).length = 4 := by simp [be32]
  have hD : (be16 op.parent_vtxindex).length = 2 := by simp [be16]
  have hE : (be32 op.key_block_ptr).length = 4 := by simp [be32]
  have hF : (be16 op.key_vtxindex).length = 2 := by simp [be16]
  have e1 : (consensus_serialize op).drop 1
      = op.block_header_hash ++ (op.new_seed ++ (be32 op.parent_block_ptr
        ++ (be16 op.parent_vtxindex ++ (be32 op.key_block_ptr
        ++ (be16 op.key_vtxindex
        ++ [op.memo.headD 0 * 8 % 256 + op.burn_parent_modulus % 8]))))) := by
    simp [consensus_serialize, List.append_assoc]
  rw [e1]
  set L := op.block_header_hash ++ (op.new_seed ++ (be32 op.parent_block_ptr
    ++ (be16 op.parent_vtxindex ++ (be32 op.key_block_ptr
    ++ (be16 op.key_vtxindex
    ++ [op.memo.headD 0 * 8 % 256 + op.burn_parent_modulus % 8]))))) with hL
  have hlen : L.length = 77 := by
    simp [hL, h_bhh, h_seed, hC, hD, hE, hF]
  have s0 : sliceBytes L 0 32 = op.block_header_hash := slice_here h_bhh
  have s1 : sliceBytes L 32 64 = op.new_seed := by
    rw [hL, slice_shift 0 32 h_bhh (by norm_num) (by norm_num)]
    exact slice_here h_seed
  have s2 : sliceBytes L 64 68 = be32 op.parent_block_ptr := by
    rw [hL, slice_shift 32 36 h_bhh (by norm_num) (by norm_num),
      slice_shift 0 4 h_seed (by norm_num) (by norm_num)]
    exact slice_here hC
  have s3 : sliceBytes L 68 70 = be16 op.parent_vtxindex := by
    rw [hL, slice_shift 36 38 h_bhh (by norm_num) (by norm_num),
      slice_shift 4 6 h_seed (by norm_num) (by norm_num),
      slice_shift 0 2 hC (by norm_num) (by norm_num)]
    exact slice_here hD
  have s4 : sliceBytes L 70 74 = be32 op.key_block_ptr := by
    rw [hL, slice_shift 38 42 h_bhh (by norm_num) (by norm_num),
      slice_shift 6 10 h_seed (by norm_num) (by norm_num),
      slice_shift 2 6 hC (by norm_num) (by norm_num),
      slice_shift 0 4 hD (by norm_num) (by norm_num)]
    exact slice_here hE
  have s5 : sliceBytes L 74 76 = be16 op.key_vtxindex := by
    rw [hL, slice_shift 42 44 h_bhh (by norm_num) (by norm_num),
      slice_shift 10 12 h_seed (by norm_num) (by norm_num),
      slice_shift 6 8 hC (by norm_num) (by norm_num),
      slice_shift 4 6 hD (by norm_num) (by norm_num),
      slice_shift 0 2 hE (by norm_num) (by norm_num)]
    exact slice_here hF
  have hbyte : L.getD 76 0 = op.memo.headD 0 * 8 % 256 + op.burn_parent_modulus % 8 := by
    have e2 : L = (op.block_header_hash ++ op.new_seed ++ be32 op.parent_block_ptr
        ++ be16 op.parent_vtxindex ++ be32 op.key_block_ptr ++ be16 op.key_vtxindex)
        ++ (op.memo.headD 0 * 8 % 256 + op.burn_parent_modulus % 8) :: [] := by
      simp [hL, List.append_assoc]
    rw [e2]
    exact getD_append_len (by simp [h_bhh, h_seed, hC, hD, hE, hF]) _ _
  unfold parse_data
  rw [hlen, if_neg (by omega : ¬ (77 : Nat) < 77)]
  rw [s2, s3, s4, s5, parse_u32_be32 _ h_pbp, parse_u16_be16 _ h_pvt,
    parse_u32_be32 _ h_kbp, parse_u16_be16 _ h_kvt]
  simp only [Option.some.injEq, ParsedData.mk.injEq]
  refine ⟨s0, s1, trivial, trivial, trivial, trivial, ?_, ?_⟩
  · rw [hbyte]
    simp only [BURN_BLOCK_MINED_AT_MODULUS]
    omega
  · rw [hbyte]
    omega

theorem C2_decode_encode_witness :
    parse_data ((consensus_serialize opC2).drop 1) =
      some { block_header_hash := opC2.block_header_hash
             new_seed := opC2.new_seed
             parent_block_ptr := opC2.parent_block_ptr
             parent_vtxindex := opC2.parent_vtxindex
             key_block_ptr := opC2.key_block_ptr
             key_vtxindex := opC2.key_vtxindex
             burn_parent_modulus := opC2.burn_parent_modulus % 8
             memo := opC2.memo.headD 0 % 32 } :=
  C2_decode_encode opC2 (by decide) (by decide) (by decide) (by decide)
    (by decide) (by decide) (by decide) (by decide)

/-- C5 counterexample: a reward set with three recipients makes
into_commit_outs return three addresses, not exactly 2 as the claim
states for every optional reward set. -/
theorem C5_counterexample :
    (into_commit_outs
      (some { anchor_block := [], recipients := [(5, 1), (6, 1), (7, 1)] }) true).length ≠
      OUTPUTS_PER_COMMIT := by
  decide

/-- C5 amended: when the optional reward set has at most 2 recipients
(and always when it is absent), into_commit_outs returns exactly 2
addresses: the set's recipient addresses in their given order padded
with the canonical network burn address up to length 2, or two burn
addresses when no reward set is given.  (A set with more than 2
recipients is returned whole, with more than 2 addresses.) -/
theorem C5_into_commit_outs (src : Option RewardSetInfo) (mainnet : Bool)
    (h : (src.elim 0 fun r => r.recipients.length) ≤ OUTPUTS_PER_COMMIT) :
    (into_commit_outs src mainnet).length = OUTPUTS_PER_COMMIT ∧
    into_commit_outs src mainnet =
      (src.elim [] fun r => r.recipients.map Prod.fst).take OUTPUTS_PER_COMMIT
        ++ List.replicate
            (OUTPUTS_PER_COMMIT - (src.elim [] fun r => r.recipients.map Prod.fst).length)
            (burn_address mainnet) := by
  cases src with
  | none =>
    simp [into_commit_outs, OUTPUTS_PER_COMMIT]
  | some r =>
    simp only [Option.elim] at h ⊢
    constructor
    · simp only [into_commit_outs, List.length_append, List.length_map,
        List.length_replicate]
      simp only [OUTPUTS_PER_COMMIT] at h ⊢
      omega
    · simp only [into_commit_outs]
      rw [List.take_of_length_le (by simpa using h)]

theorem C5_into_commit_outs_witness :
    (into_commit_outs (some { anchor_block := [], recipients := [(9, 1)] }) false).length =
      OUTPUTS_PER_COMMIT ∧
    into_commit_outs (some { anchor_block := [], recipients := [(9, 1)] }) false =
      ((some { anchor_block := [], recipients := [(9, 1)] } : Option RewardSetInfo).elim []
        fun r => r.recipients.map Prod.fst).take OUTPUTS_PER_COMMIT
        ++ List.replicate
            (OUTPUTS_PER_COMMIT -
              ((some { anchor_block := [], recipients := [(9, 1)] } :
                Option RewardSetInfo).elim [] fun r => r.recipients.map Prod.fst).length)
            (burn_address false) :=
  C5_into_commit_outs (some { anchor_block := [], recipients := [(9, 1)] }) false (by decide)

/-- C4 counterexample: at a post-sunset height, a transaction whose
single burn output carries amount 0 is successfully classified with
burn_fee = 0, contradicting the claim that every operation produced by
parse_from_tx has a positive burn fee in all three phases. -/
theorem C4_counterexample :
    bcC4.pox_constants.sunset_end ≤ 10 ∧
    (parse_from_tx bcC4 10 0 txC4).map LeaderBlockCommitOp.burn_fee = .ok 0 := by
  decide

/-- C4 amended: every operation successfully produced by parse_from_tx
in the reward phase (below sunset end and outside the prepare phase)
satisfies burn_fee > 0; in the post-sunset and prepare phases the burn
fee is the first output's amount and may be zero. -/
theorem C4_reward_burn_fee_pos (burnchain : Burnchain) (block_height block_hash : Nat)
    (tx : BurnchainTransaction) (op : LeaderBlockCommitOp)
    (hsun : block_height < burnchain.pox_constants.sunset_end)
    (hprep : burnchain.is_in_prepare_phase block_height = false)
    (hok : parse_from_tx burnchain block_height block_hash tx = .ok op) :
    0 < op.burn_fee := by
  unfold parse_from_tx at hok
  split at hok
  · exact absurd hok (by simp)
  split at hok
  · exact absurd hok (by simp)
  split at hok
  · exact absurd hok (by simp)
  split at hok
  · exact absurd hok (by simp)
  split at hok
  · exact absurd hok (by simp)
  split at hok
  · exact absurd hok (by simp)
  split at hok
  · exact absurd hok (by simp)
  split at hok
  · exact absurd hok (by simp)
  split at hok
  · exact absurd hok (by simp)
  rename_i heq
  rw [if_neg (by omega : ¬ burnchain.pox_constants.sunset_end ≤ block_height), hprep] at heq
  rw [if_neg (by simp : ¬ (false = true))] at heq
  unfold reward_phase_outputs at heq
  split at heq
  case _ o1 o2 tl =>
    split at heq
    · exact absurd heq (by simp)
    split at heq
    · exact absurd heq (by simp)
    split at heq
    · exact absurd heq (by simp)
    rename_i hz
    cases heq
    injection hok with h
    subst h
    simp only []
    omega
  case _ =>
    exact absurd heq (by simp)

theorem C4_reward_burn_fee_pos_witness : 0 < opC4W.burn_fee :=
  C4_reward_burn_fee_pos bcC4W 10 0 txC4W opC4W (by decide) (by decide) (by decide)

/-- C10: in the reward phase, the burn fee is the common per-output
amount doubled with checked u64 multiplication: if the doubling reaches
2^64 the classifier fails with a parse error instead of wrapping. -/
theorem C10_checked_mul (burnchain : Burnchain) (block_height block_hash : Nat)
    (tx : BurnchainTransaction) (o1 o2 : BurnchainRecipient) (rest : List BurnchainRecipient)
    (pd : ParsedData)
    (hsig : tx.num_signers ≠ 0)
    (hrec : tx.recipients = o1 :: o2 :: rest)
    (hop : tx.opcode = LEADER_BLOCK_COMMIT_OPCODE)
    (hpd : parse_data tx.data = some pd)
    (h1 : ¬(pd.parent_block_ptr = 0 ∧ pd.parent_vtxindex ≠ 0))
    (h2 : pd.parent_block_ptr < block_height)
    (h3 : pd.key_block_ptr ≠ 0)
    (h4 : pd.key_block_ptr < block_height)
    (hsun : block_height < burnchain.pox_constants.sunset_end)
    (hprep : burnchain.is_in_prepare_phase block_height = false)
    (hamt : o2.amount = o1.amount)
    (hover : 2 ^ 64 ≤ o1.amount * OUTPUTS_PER_COMMIT) :
    parse_from_tx burnchain block_height block_hash tx = .error .ParseError := by
  unfold parse_from_tx reward_phase_outputs
  simp_all
  rw [if_neg (by omega : ¬ burnchain.pox_constants.sunset_end ≤ block_height)]

theorem C10_checked_mul_witness :
    parse_from_tx bcC4W 10 0 txC10W = .error .ParseError :=
  C10_checked_mul bcC4W 10 0 txC10W
    { address := 100, amount := 2 ^ 63 } { address := 200, amount := 2 ^ 63 } []
    { block_header_hash := List.replicate 32 0
      new_seed := List.replicate 32 0
      parent_block_ptr := 0
      parent_vtxindex := 0
      key_block_ptr := 1
      key_vtxindex := 0
      burn_parent_modulus := 0
      memo := 0 }
    (by decide) (by decide) (by decide) (by decide) (by decide) (by decide)
    (by decide) (by decide) (by decide) (by decide) (by decide) (by decide)

/-- C1: for an operation with a nonzero burn fee whose intended modulus
(burn_parent_modulus + 1 mod 5) differs from block_height mod 5, the
checker computes the miss distance (actual minus intended if positive,
else 5 + actual minus intended) and returns the bad-modulus error when it
exceeds the block height, the no-parent error when no ancestor hash
exists at block_height - miss_distance, and otherwise the
missed-commitment result carrying exactly that ancestor hash, the
operation's txid and spent input — never a hard rejection and never
acceptance. -/
theorem C1_missed_commitment (op : LeaderBlockCommitOp) (burnchain : Burnchain)
    (view : SortitionView) (rsi : Option RewardSetInfo)
    (hfee : op.burn_fee ≠ 0)
    (hmiss : op.block_height % 5 ≠ (op.burn_parent_modulus + 1) % 5) :
    check op burnchain view rsi =
      if op.block_height <
          (if (op.burn_parent_modulus + 1) % 5 < op.block_height % 5 then
            op.block_height % 5 - (op.burn_parent_modulus + 1) % 5
          else 5 + op.block_height % 5 - (op.burn_parent_modulus + 1) % 5) then
        .err .BlockCommitBadModulus
      else
        match view.ancestor_block_hash (op.block_height -
            (if (op.burn_parent_modulus + 1) % 5 < op.block_height % 5 then
              op.block_height % 5 - (op.burn_parent_modulus + 1) % 5
            else 5 + op.block_height % 5 - (op.burn_parent_modulus + 1) % 5)) with
        | none => .err .BlockCommitNoParent
        | some found =>
          .err (.MissedBlockCommit
            { txid := op.txid, input := op.input, intended_sortition := found }) := by
  simp only [check, BURN_BLOCK_MINED_AT_MODULUS, Nat.mod_add_mod]
  rw [if_neg hfee, if_pos hmiss]

theorem C1_missed_commitment_witness :
    check opC1W bcC1W viewC1W none =
      .err (.MissedBlockCommit { txid := 4, input := (1, 2), intended_sortition := 99 }) :=
  (C1_missed_commitment opC1W bcC1W viewC1W none (by decide) (by decide)).trans (by decide)

/-- C9: for any operation below the sunset end that passes the burn-fee
and modulus checks but whose sunset burn is below the amount demanded by
the chain's sunset-burn formula (applied to burn_fee + sunset_burn), the
checker rejects with the bad-outputs error, independently of the commit
outputs, of the reward set and of the prepare-phase predicate — so the
sunset-burn sufficiency check precedes every output-shape and reward-set
comparison, for prepare-phase operations as well. -/
theorem C9_sunset_burn_precedes (op : LeaderBlockCommitOp) (burnchain : Burnchain)
    (view : SortitionView) (rsi : Option RewardSetInfo)
    (hfee : op.burn_fee ≠ 0)
    (hmod : op.block_height % 5 = (op.burn_parent_modulus + 1) % 5)
    (hsun : op.block_height < burnchain.pox_constants.sunset_end)
    (hof : op.burn_fee + op.sunset_burn < 2 ^ 64)
    (hviol : op.sunset_burn <
      burnchain.expected_sunset_burn op.block_height (op.burn_fee + op.sunset_burn)) :
    check op burnchain view rsi = .err .BlockCommitBadOutputs := by
  have hpox : pox_step op burnchain view rsi = .err .BlockCommitBadOutputs := by
    unfold pox_step check_pox
    rw [if_neg (by omega : ¬ burnchain.pox_constants.sunset_end ≤ op.block_height),
      if_neg (by omega : ¬ 2 ^ 64 ≤ op.burn_fee + op.sunset_burn), if_pos hviol]
  simp only [check, BURN_BLOCK_MINED_AT_MODULUS, Nat.mod_add_mod]
  rw [if_neg hfee, if_neg (not_ne_iff.mpr hmod), hpox]

theorem C9_sunset_burn_precedes_witness :
    check opC9W bcC9W viewC1W none = .err .BlockCommitBadOutputs :=
  C9_sunset_burn_precedes opC9W bcC9W viewC1W none (by decide) (by decide) (by decide)
    (by decide) (by decide)

/-- C3 counterexample: a prepare-phase operation (below sunset end,
passing the burn-fee and modulus checks) with two burn commit outputs and
no supplied reward set is fully accepted by the checker, so the checker
does not require exactly one commit output regardless of whether a reward
set is supplied. -/
theorem C3_counterexample :
    bcC3X.is_in_prepare_phase opC3X.block_height = true ∧
    opC3X.block_height < bcC3X.pox_constants.sunset_end ∧
    opC3X.commit_outs.length ≠ 1 ∧
    check opC3X bcC3X viewC3X none = .ok := by
  decide

/-- C3 amended: for an operation whose sunset burn suffices (and whose
total committed amount fits in u64) at a prepare-phase height, the PoX
check demands exactly one commit output that is a burn address only when
a reward set is supplied; when no reward set is supplied it demands only
that all commit outputs (however many) are burn addresses.  Either demand
fails with the bad-outputs error. -/
theorem C3_prepare_phase_outputs (op : LeaderBlockCommitOp) (burnchain : Burnchain)
    (view : SortitionView) (rsi : Option RewardSetInfo)
    (hof : op.burn_fee + op.sunset_burn < 2 ^ 64)
    (hsb : burnchain.expected_sunset_burn op.block_height (op.burn_fee + op.sunset_burn) ≤
      op.sunset_burn)
    (hprep : burnchain.is_in_prepare_phase op.block_height = true) :
    check_pox op burnchain view rsi =
      match rsi with
      | some _ =>
        if op.commit_outs.length = 1 ∧ is_burn (op.commit_outs.headD 0) = true then .ok
        else .err .BlockCommitBadOutputs
      | none => if all_outputs_burn op = true then .ok else .err .BlockCommitBadOutputs := by
  unfold check_pox
  rw [if_neg (by omega : ¬ 2 ^ 64 ≤ op.burn_fee + op.sunset_burn),
    if_neg (by omega : ¬ op.sunset_burn <
      burnchain.expected_sunset_burn op.block_height (op.burn_fee + op.sunset_burn))]
  cases rsi with
  | none =>
    cases h : all_outputs_burn op <;> simp [h]
  | some r =>
    simp only []
    rw [if_pos hprep]
    unfold check_prepare_commit_burn check_single_burn_output
    by_cases h1 : op.commit_outs.length = 1
    · rw [if_neg (by omega : ¬ op.commit_outs.length ≠ 1)]
      cases h2 : is_burn (op.commit_outs.headD 0) with
      | false => simp [h1]
      | true => simp [h1]
    · rw [if_pos h1, if_neg (by simp [h1] : ¬(op.commit_outs.length = 1 ∧
        is_burn (op.commit_outs.headD 0) = true))]

theorem C3_prepare_phase_outputs_witness :
    check_pox opC3X bcC3X viewC3X (some { anchor_block := [], recipients := [(9, 1)] }) =
      .err .BlockCommitBadOutputs :=
  (C3_prepare_phase_outputs opC3X bcC3X viewC3X
    (some { anchor_block := [], recipients := [(9, 1)] })
    (by decide) (by decide) (by decide)).trans (by decide)

/-- C6: for an operation that reaches the epoch-marker step (all earlier
guards pass), under the later epoch (2.05) an empty memo or a first memo
byte below the minimum marker constant yields the bad-epoch error while a
byte at or above it is accepted; under the early epoch (2.0) the
operation is accepted at this step regardless of its memo. -/
theorem C6_epoch_marker (op : LeaderBlockCommitOp) (burnchain : Burnchain)
    (view : SortitionView) (rsi : Option RewardSetInfo)
    (hfee : op.burn_fee ≠ 0)
    (hmod : op.block_height % 5 = (op.burn_parent_modulus + 1) % 5)
    (hpox : pox_step op burnchain view rsi = .ok)
    (hgen : view.first_block_height ≤ op.block_height)
    (huniq : view.expects_stacks_block_in_fork op.block_header_hash = false)
    (hkeylt : op.key_block_ptr < op.block_height)
    (hkey : view.get_leader_key_at op.key_block_ptr op.key_vtxindex = true)
    (hpne : op.parent_block_ptr ≠ op.block_height)
    (hpar : op.parent_block_ptr ≠ 0 ∨ op.parent_vtxindex ≠ 0 →
      view.get_block_commit_parent op.parent_block_ptr op.parent_vtxindex = true) :
    (view.get_stacks_epoch op.block_height = some .Epoch2_05 →
      check op burnchain view rsi =
        match op.memo with
        | [] => .err .BlockCommitBadEpoch
        | m0 :: _ =>
          if m0 < STACKS_EPOCH_2_05_MARKER then .err .BlockCommitBadEpoch else .ok) ∧
    (view.get_stacks_epoch op.block_height = some .Epoch20 →
      check op burnchain view rsi = .ok) := by
  have hpar2 : ¬((op.parent_block_ptr ≠ 0 ∨ op.parent_vtxindex ≠ 0) ∧
      view.get_block_commit_parent op.parent_block_ptr op.parent_vtxindex = false) := by
    rintro ⟨ha, hb⟩
    rw [hpar ha] at hb
    exact absurd hb (by simp)
  have hcommon : check op burnchain view rsi =
      match view.get_stacks_epoch op.block_height with
      | none => .fatal
      | some .Epoch10 => .fatal
      | some .Epoch20 => .ok
      | some .Epoch2_05 =>
        match op.memo with
        | [] => .err .BlockCommitBadEpoch
        | m0 :: _ =>
          if m0 < STACKS_EPOCH_2_05_MARKER then .err .BlockCommitBadEpoch else .ok := by
    simp only [check, BURN_BLOCK_MINED_AT_MODULUS, Nat.mod_add_mod]
    rw [if_neg hfee, if_neg (not_ne_iff.mpr hmod), hpox]
    simp only []
    rw [if_neg (by omega : ¬ op.block_height < view.first_block_height), huniq,
      if_neg (by simp : ¬ (false = true)),
      if_neg (by omega : ¬ op.block_height ≤ op.key_block_ptr), hkey,
      if_neg (by simp : ¬ (true = false)), if_neg hpne, if_neg hpar2]
  constructor
  · intro h
    rw [hcommon, h]
  · intro h
    rw [hcommon, h]

theorem C6_epoch_marker_witness : check opC6W bcC1W viewC1W none = .ok :=
  ((C6_epoch_marker opC6W bcC1W viewC1W none (by decide) (by decide) (by decide)
    (by decide) (by decide) (by decide) (by decide) (by decide)
    (fun _ => by decide)).1 (by decide)).trans (by decide)

/-- C7: in the reward-phase PoX check with a supplied reward set that is
not all burn addresses and commit outputs that are not all burns, the
expected recipient list (the set's addresses, padded to 2 with a burn
address when the set has exactly one recipient) must have the same
length as commit_outs, else the bad-outputs error; and the subsequent
comparison sorts both lists independently, so any permutation of the
expected recipients in commit_outs passes it and the check proceeds to
the anchor-descent query with a positive expectation. -/
theorem C7_sorted_comparison (op : LeaderBlockCommitOp) (burnchain : Burnchain)
    (view : SortitionView) (r : RewardSetInfo)
    (hof : op.burn_fee + op.sunset_burn < 2 ^ 64)
    (hsb : burnchain.expected_sunset_burn op.block_height (op.burn_fee + op.sunset_burn) ≤
      op.sunset_burn)
    (hprep : burnchain.is_in_prepare_phase op.block_height = false)
    (hrb : r.recipients.foldl (fun prior_is_burn p => prior_is_burn && is_burn p.1) true =
      false)
    (hcb : all_outputs_burn op = false) :
    (op.commit_outs.length ≠ (check_recipients_padded burnchain r).length →
      check_pox op burnchain view (some r) = .err .BlockCommitBadOutputs) ∧
    (op.commit_outs.Perm (check_recipients_padded burnchain r) →
      check_pox op burnchain view (some r) =
        match view.descended_from op.parent_block_ptr r.anchor_block with
        | none => .err .BlockCommitAnchorCheck
        | some descended =>
          if descended = true then .ok else .err .BlockCommitBadOutputs) := by
  constructor
  · intro hlen
    unfold check_pox
    rw [if_neg (by omega : ¬ 2 ^ 64 ≤ op.burn_fee + op.sunset_burn),
      if_neg (by omega : ¬ op.sunset_burn <
        burnchain.expected_sunset_burn op.block_height (op.burn_fee + op.sunset_burn))]
    simp only []
    rw [hprep, if_neg (by simp : ¬ (false = true)), hrb,
      if_neg (by simp : ¬ (false = true)), hcb,
      if_neg (by simp : ¬ (false = true)), if_pos hlen]
  · intro hperm
    unfold check_pox
    rw [if_neg (by omega : ¬ 2 ^ 64 ≤ op.burn_fee + op.sunset_burn),
      if_neg (by omega : ¬ op.sunset_burn <
        burnchain.expected_sunset_burn op.block_height (op.burn_fee + op.sunset_burn))]
    simp only []
    rw [hprep, if_neg (by simp : ¬ (false = true)), hrb,
      if_neg (by simp : ¬ (false = true)), hcb,
      if_neg (by simp : ¬ (false = true)),
      if_neg (not_ne_iff.mpr hperm.length_eq),
      sortAddrs_eq_of_perm hperm, zip_self_all_eq,
      if_neg (by simp : ¬ (true = false))]
    simp only []
    cases hd : view.descended_from op.parent_block_ptr r.anchor_block with
    | none => rfl
    | some b => cases b <;> rfl

theorem C7_sorted_comparison_witness :
    check_pox opC7W bcC1W viewC1W
      (some { anchor_block := [], recipients := [(100, 1), (200, 1)] }) = .ok :=
  ((C7_sorted_comparison opC7W bcC1W viewC1W
    { anchor_block := [], recipients := [(100, 1), (200, 1)] }
    (by decide) (by decide) (by decide) (by decide) (by decide)).2 (by decide)).trans
    (by decide)

end LBC
